import Mathlib

/-!
Verification of the Flask application `Fapp.py`.

The program registers a single route `/` whose handler `home` returns an
HTML page interpolating the current wall-clock timestamp
(`datetime.now().strftime("%Y-%m-%d %H:%M:%S")`) into a fixed template,
and runs the server on host 0.0.0.0, port 8080.

We embed the handler as a pure function of the clock value read at
request-handling time, and the framework dispatch as a function from
(clock value, request) to response.
-/

namespace Fapp

/-- A wall-clock value as produced by Python `datetime.now()`:
the fields of a `datetime.datetime` object.  CPython enforces
`1 ≤ year ≤ 9999`, `1 ≤ month ≤ 12`, `1 ≤ day ≤ 31`,
`hour < 24`, `minute < 60`, `second < 60`. -/
structure DateTime where
  year : Nat
  month : Nat
  day : Nat
  hour : Nat
  minute : Nat
  second : Nat
deriving DecidableEq, Repr

/-- The invariant CPython's `datetime` constructor enforces on its fields. -/
def DateTime.Valid (t : DateTime) : Prop :=
  1 ≤ t.year ∧ t.year ≤ 9999 ∧ 1 ≤ t.month ∧ t.month ≤ 12 ∧
  1 ≤ t.day ∧ t.day ≤ 31 ∧ t.hour < 24 ∧ t.minute < 60 ∧ t.second < 60

instance (t : DateTime) : Decidable t.Valid := by
  unfold DateTime.Valid; infer_instance

/-- `strftime`'s two-digit zero-padded decimal conversion, used for the
`%m %d %H %M %S` directives: the decimal representation, left-padded
with `0` to width 2. -/
def pad2 (n : Nat) : String :=
  if n < 10 then "0" ++ Nat.repr n else Nat.repr n

/-- `strftime("%Y-%m-%d %H:%M:%S")` on a datetime value.  `%Y` is the
year's plain decimal representation (glibc does not zero-pad `%Y`);
the remaining directives are two-digit zero-padded. -/
def strftimeYmdHMS (t : DateTime) : String :=
  Nat.repr t.year ++ "-" ++ pad2 t.month ++ "-" ++ pad2 t.day ++ " " ++
  pad2 t.hour ++ ":" ++ pad2 t.minute ++ ":" ++ pad2 t.second

/-- The part of the f-string template in `home` before the interpolated
`datetime.now().strftime(...)` expression (Python's `{{`/`}}` render as
literal braces, written here as `\x7b`/`\x7d`). -/
def templatePrefix : String :=
  "\n    <!DOCTYPE html>\n    <html lang=\"en\">\n    <head>\n      <meta charset=\"UTF-8\">\n      <meta name=\"viewport\" content=\"width=device-width, initial-scale=1.0\">\n      <title>Stage1 HNG13 Deployment Successful!</title>\n      <style>\n        body \x7b\n          font-family: Arial, sans-serif;\n          display: flex;\n          justify-content: center;\n          align-items: center;\n          height: 100vh;\n          margin: 0;\n          background: linear-gradient(135deg, #3f8bcd 0%, #2a629a 100%);\n          color: white;\n        \x7d\n        .container \x7b\n          text-align: center;\n          padding: 2rem;\n          background: rgba(255, 255, 255, 0.1);\n          border-radius: 10px;\n          backdrop-filter: blur(10px);\n        \x7d\n        h1 \x7b margin-bottom: 1rem; \x7d\n        .timestamp \x7b font-size: 0.9em; opacity: 0.8; \x7d\n      </style>\n    </head>\n    <body>\n      <div class=\"container\">\n        <h1>🚀Stage1 HNG13 Deployment Successful!</h1>\n        <p>Your automated deployment script is working!</p>\n        <p class=\"timestamp\">Server Time: "

/-- The part of the f-string template in `home` after the interpolated
timestamp expression. -/
def templateSuffix : String :=
  "</p>\n      </div>\n    </body>\n    </html>\n    "

/-- The view function `home` (lines 7-45 of `Fapp.py`): the returned
string, as a function of the clock value read by `datetime.now()`
during the request. -/
def home (now : DateTime) : String :=
  templatePrefix ++ strftimeYmdHMS now ++ templateSuffix

/-- An incoming HTTP request as seen by the WSGI layer. -/
structure Request where
  method : String
  path : String
  query : List (String × String)
  headers : List (String × String)
  body : String
deriving DecidableEq, Repr

/-- An HTTP response: status code, media type of the Content-Type
header, and body. -/
structure Response where
  status : Nat
  mimetype : String
  body : String
deriving DecidableEq, Repr

/-- Modelled from the spec: Flask's default request dispatch for this
application is not part of the repository's sources; per the spec the
root path `/` is "the only route defined", a matched `GET` returns the
handler's string as a 200 `text/html` response, and the framework
supplies the defaults for everything else (`HEAD`/`OPTIONS` derived
from the registered `GET` rule, 405 for other methods on `/`, 404 for
any other path). -/
def appDispatch (now : DateTime) (req : Request) : Response :=
  if req.path = "/" then
    if req.method = "GET" ∨ req.method = "HEAD" then
      { status := 200, mimetype := "text/html", body := home now }
    else if req.method = "OPTIONS" then
      { status := 200, mimetype := "text/html", body := "" }
    else
      { status := 405, mimetype := "text/html",
        body := "Method Not Allowed" }
  else
    { status := 404, mimetype := "text/html", body := "Not Found" }

/-- The observable program state around a request: the system clock
plus everything else the process could touch (files, global variables).
The handler's Python body is a single `return` of an f-string whose
only subexpression reading the environment is `datetime.now()`. -/
structure World where
  clock : DateTime
  files : List (String × String)
  globals : List (String × String)
deriving DecidableEq, Repr

/-- Handling a request, as a state transformer on `World`: the source
handler evaluates `datetime.now()` (a read of `clock`) and returns the
rendered string; no part of its body assigns, writes or opens
anything. -/
def handleWorld (w : World) (req : Request) : Response × World :=
  (appDispatch w.clock req, w)

/-- The `app.run(host='0.0.0.0', port=8080)` call at lines 47-48. -/
structure ServerConfig where
  host : String
  port : Nat
deriving DecidableEq, Repr

/-- The binding configuration the script passes to `app.run`. -/
def serverConfig : ServerConfig :=
  { host := "0.0.0.0", port := 8080 }

/-- Decides whether a string matches the anchored pattern
`\d\{4\}-\d\{2\}-\d\{2\} \d\{2\}:\d\{2\}:\d\{2\}`: exactly 19
characters, digits at the digit positions and the literal separators
`-`, `-`, space, `:`, `:` in between. -/
def matchesTsPattern (s : String) : Bool :=
  match s.data with
  | [y1, y2, y3, y4, d1, m1, m2, d2, a1, a2, sp, h1, h2, c1, n1, n2, c2, s1, s2] =>
    y1.isDigit && y2.isDigit && y3.isDigit && y4.isDigit && d1 = '-' &&
    m1.isDigit && m2.isDigit && d2 = '-' && a1.isDigit && a2.isDigit &&
    sp = ' ' && h1.isDigit && h2.isDigit && c1 = ':' && n1.isDigit &&
    n2.isDigit && c2 = ':' && s1.isDigit && s2.isDigit
  | _ => false

/-- The part of `templatePrefix` before the first occurrence of
`"Deployment Successful!"` (which sits inside the `<title>` element). -/
def prefixA : String :=
  "\n    <!DOCTYPE html>\n    <html lang=\"en\">\n    <head>\n      <meta charset=\"UTF-8\">\n      <meta name=\"viewport\" content=\"width=device-width, initial-scale=1.0\">\n      <title>Stage1 HNG13 "

/-- The part of `templatePrefix` after the first occurrence of
`"Deployment Successful!"`. -/
def prefixB : String :=
  "</title>\n      <style>\n        body \x7b\n          font-family: Arial, sans-serif;\n          display: flex;\n          justify-content: center;\n          align-items: center;\n          height: 100vh;\n          margin: 0;\n          background: linear-gradient(135deg, #3f8bcd 0%, #2a629a 100%);\n          color: white;\n        \x7d\n        .container \x7b\n          text-align: center;\n          padding: 2rem;\n          background: rgba(255, 255, 255, 0.1);\n          border-radius: 10px;\n          backdrop-filter: blur(10px);\n        \x7d\n        h1 \x7b margin-bottom: 1rem; \x7d\n        .timestamp \x7b font-size: 0.9em; opacity: 0.8; \x7d\n      </style>\n    </head>\n    <body>\n      <div class=\"container\">\n        <h1>🚀Stage1 HNG13 Deployment Successful!</h1>\n        <p>Your automated deployment script is working!</p>\n        <p class=\"timestamp\">Server Time: "

/-- A sample clock value used in witnesses. -/
def sampleTime : DateTime :=
  { year := 2025, month := 10, day := 12, hour := 9, minute := 5, second := 30 }

/-- A plain GET request for the root path. -/
def sampleGet : Request :=
  { method := "GET", path := "/", query := [], headers := [], body := "" }

end Fapp

namespace Fapp

/-- One step of `Nat.toDigitsCore`'s fuelled recursion. -/
theorem toDigitsCore_unfold (b f n : Nat) (l : List Char) (hf : 0 < f) :
    Nat.toDigitsCore b f n l =
      if n / b = 0 then Nat.digitChar (n % b) :: l
      else Nat.toDigitsCore b (f - 1) (n / b) (Nat.digitChar (n % b) :: l) := by
  obtain ⟨g, rfl⟩ : ∃ g, f = g + 1 := ⟨f - 1, by omega⟩
  simp [Nat.toDigitsCore]

/-- `Nat.repr` of a one-digit number. -/
theorem repr_data_oneDigit (n : Nat) (h : n < 10) :
    (Nat.repr n).data = [Nat.digitChar (n % 10)] := by
  unfold Nat.repr Nat.toDigits
  rw [toDigitsCore_unfold 10 (n + 1) n [] (by omega)]
  have h0 : n / 10 = 0 := by omega
  simp [h0, List.asString]

/-- `Nat.repr` of a two-digit number. -/
theorem repr_data_twoDigits (n : Nat) (h1 : 10 ≤ n) (h2 : n < 100) :
    (Nat.repr n).data = [Nat.digitChar (n / 10 % 10), Nat.digitChar (n % 10)] := by
  unfold Nat.repr Nat.toDigits
  rw [toDigitsCore_unfold 10 (n + 1) n [] (by omega)]
  have h0 : ¬ n / 10 = 0 := by omega
  rw [if_neg h0, toDigitsCore_unfold 10 (n + 1 - 1) (n / 10) _ (by omega)]
  have h3 : n / 10 / 10 = 0 := by omega
  simp [h3, List.asString]

/-- `Nat.repr` of a four-digit number. -/
theorem repr_data_fourDigits (n : Nat) (h1 : 1000 ≤ n) (h2 : n < 10000) :
    (Nat.repr n).data =
      [Nat.digitChar (n / 1000 % 10), Nat.digitChar (n / 100 % 10),
       Nat.digitChar (n / 10 % 10), Nat.digitChar (n % 10)] := by
  unfold Nat.repr Nat.toDigits
  rw [toDigitsCore_unfold 10 (n + 1) n [] (by omega)]
  have h0 : ¬ n / 10 = 0 := by omega
  rw [if_neg h0, toDigitsCore_unfold 10 (n + 1 - 1) (n / 10) _ (by omega)]
  have e1 : n / 10 / 10 = n / 100 := by omega
  have h3 : ¬ n / 100 = 0 := by omega
  rw [e1, if_neg h3, toDigitsCore_unfold 10 (n + 1 - 1 - 1) (n / 100) _ (by omega)]
  have e2 : n / 100 / 10 = n / 1000 := by omega
  have h4 : ¬ n / 1000 = 0 := by omega
  rw [e2, if_neg h4, toDigitsCore_unfold 10 (n + 1 - 1 - 1 - 1) (n / 1000) _ (by omega)]
  have e3 : n / 1000 / 10 = 0 := by omega
  simp [e3, List.asString]

/-- `pad2` always yields two decimal digit characters on inputs below
100 (all five two-digit `strftime` fields are). -/
theorem pad2_data (n : Nat) (h : n < 100) :
    (pad2 n).data = [Nat.digitChar (n / 10 % 10), Nat.digitChar (n % 10)] := by
  unfold pad2
  split
  · rename_i hlt
    rw [String.data_append, repr_data_oneDigit n hlt]
    have h0 : n / 10 % 10 = 0 := by omega
    rw [h0]
    rfl
  · rename_i hge
    exact repr_data_twoDigits n (by omega) h

/-- `Nat.digitChar` of a value below ten is a decimal digit character. -/
theorem digitChar_isDigit : ∀ m, m < 10 → (Nat.digitChar m).isDigit = true := by
  decide

theorem dash_data : ("-" : String).data = ['-'] := rfl

theorem space_data : (" " : String).data = [' '] := rfl

theorem colon_data : (":" : String).data = [':'] := rfl

/-- The formatted timestamp of a datetime with a four-digit year
matches the `\d\{4\}-\d\{2\}-\d\{2\} \d\{2\}:\d\{2\}:\d\{2\}` pattern. -/
theorem strftime_matches_pattern (t : DateTime) (hy : 1000 ≤ t.year)
    (hv : t.Valid) : matchesTsPattern (strftimeYmdHMS t) = true := by
  obtain ⟨_, hy2, _, hmo2, _, hd2, hh, hmi, hs⟩ := hv
  unfold matchesTsPattern strftimeYmdHMS
  simp only [String.data_append, dash_data, space_data, colon_data,
    repr_data_fourDigits t.year hy (by omega),
    pad2_data t.month (by omega), pad2_data t.day (by omega),
    pad2_data t.hour (by omega), pad2_data t.minute (by omega),
    pad2_data t.second (by omega),
    List.cons_append, List.nil_append, List.append_assoc]
  simp [digitChar_isDigit _ (by omega : t.year / 1000 % 10 < 10),
    digitChar_isDigit _ (by omega : t.year / 100 % 10 < 10),
    digitChar_isDigit _ (by omega : t.year / 10 % 10 < 10),
    digitChar_isDigit _ (by omega : t.year % 10 < 10),
    digitChar_isDigit _ (by omega : t.month / 10 % 10 < 10),
    digitChar_isDigit _ (by omega : t.month % 10 < 10),
    digitChar_isDigit _ (by omega : t.day / 10 % 10 < 10),
    digitChar_isDigit _ (by omega : t.day % 10 < 10),
    digitChar_isDigit _ (by omega : t.hour / 10 % 10 < 10),
    digitChar_isDigit _ (by omega : t.hour % 10 < 10),
    digitChar_isDigit _ (by omega : t.minute / 10 % 10 < 10),
    digitChar_isDigit _ (by omega : t.minute % 10 < 10),
    digitChar_isDigit _ (by omega : t.second / 10 % 10 < 10),
    digitChar_isDigit _ (by omega : t.second % 10 < 10)]

/-- **C3.** The timestamp embedded in the body of the response to a GET
on `/` is the clock value read at request handling, formatted as
`YYYY-MM-DD HH:MM:SS`: the body embeds `strftimeYmdHMS` of the
handling-time clock, and that string matches the pattern
`\d\{4\}-\d\{2\}-\d\{2\} \d\{2\}:\d\{2\}:\d\{2\}` (the year hypothesis
`1000 ≤ year` holds of any current wall-clock value; glibc's `%Y`
directive does not zero-pad smaller years). -/
theorem body_timestamp_current_and_formatted (now : DateTime) (req : Request)
    (hm : req.method = "GET") (hp : req.path = "/")
    (hv : now.Valid) (hy : 1000 ≤ now.year) :
    (appDispatch now req).body =
      templatePrefix ++ strftimeYmdHMS now ++ templateSuffix ∧
    matchesTsPattern (strftimeYmdHMS now) = true :=
  ⟨by simp [appDispatch, hm, hp, home],
   strftime_matches_pattern now hy hv⟩

/-- Witness for C3 at a concrete request and clock value. -/
theorem body_timestamp_current_and_formatted_witness :
    sampleTime.Valid ∧ 1000 ≤ sampleTime.year ∧
    (appDispatch sampleTime sampleGet).body =
      templatePrefix ++ strftimeYmdHMS sampleTime ++ templateSuffix ∧
    matchesTsPattern (strftimeYmdHMS sampleTime) = true :=
  ⟨by decide, by decide,
   body_timestamp_current_and_formatted sampleTime sampleGet rfl rfl
     (by decide) (by decide)⟩

/-- **C1.** Every GET request to `/` yields a response with status 200. -/
theorem get_root_status_200 (now : DateTime) (req : Request)
    (hm : req.method = "GET") (hp : req.path = "/") :
    (appDispatch now req).status = 200 := by
  simp [appDispatch, hm, hp]

/-- Witness for C1 at a concrete request and clock value. -/
theorem get_root_status_200_witness :
    sampleGet.method = "GET" ∧ sampleGet.path = "/" ∧
    (appDispatch sampleTime sampleGet).status = 200 :=
  ⟨rfl, rfl, get_root_status_200 sampleTime sampleGet rfl rfl⟩

/-- **C6.** The script starts the server bound to all interfaces
(host `0.0.0.0`) on port 8080. -/
theorem server_binds_all_interfaces_8080 :
    serverConfig.host = "0.0.0.0" ∧ serverConfig.port = 8080 :=
  ⟨rfl, rfl⟩

/-- **C7.** The response to a GET on `/` depends only on the method and
path of the request: two requests agreeing on those fields, handled at
the same clock value, receive identical responses regardless of query
parameters, headers or bodies. -/
theorem response_ignores_query_headers_body (now : DateTime)
    (r1 r2 : Request) (hm : r1.method = r2.method) (hp : r1.path = r2.path) :
    appDispatch now r1 = appDispatch now r2 := by
  simp [appDispatch, hm, hp]

/-- Witness for C7: two GET requests to `/` differing in query string,
headers and body receive the same response. -/
theorem response_ignores_query_headers_body_witness :
    appDispatch sampleTime sampleGet =
      appDispatch sampleTime
        { method := "GET", path := "/", query := [("debug", "1")],
          headers := [("X-Forwarded-For", "10.0.0.1")], body := "payload" } :=
  response_ignores_query_headers_body sampleTime sampleGet
    { method := "GET", path := "/", query := [("debug", "1")],
      headers := [("X-Forwarded-For", "10.0.0.1")], body := "payload" }
    rfl rfl

/-- **C8.** Handling any request leaves the world unchanged: the
handler reads the clock to build its response and writes nothing. -/
theorem handle_no_side_effects (w : World) (req : Request) :
    (handleWorld w req).2 = w ∧
    (handleWorld w req).1 = appDispatch w.clock req :=
  ⟨rfl, rfl⟩

/-- **C9.** A request for any path other than `/` receives a 404
response: `/` is the only registered route. -/
theorem non_root_path_404 (now : DateTime) (req : Request)
    (hp : req.path ≠ "/") :
    (appDispatch now req).status = 404 := by
  simp [appDispatch, hp]

/-- Witness for C9 at the concrete path `/health`. -/
theorem non_root_path_404_witness :
    ({ method := "GET", path := "/health", query := [], headers := [],
       body := "" } : Request).path ≠ "/" ∧
    (appDispatch sampleTime
      { method := "GET", path := "/health", query := [], headers := [],
        body := "" }).status = 404 :=
  ⟨by decide,
    non_root_path_404 sampleTime
      { method := "GET", path := "/health", query := [], headers := [],
        body := "" } (by decide)⟩

/-- **C10.** A request to `/` whose method is none of GET, HEAD or
OPTIONS receives a 405 response whose body is the framework's error
page, not the handler's output: the handler body never runs. -/
theorem root_bad_method_405 (now : DateTime) (req : Request)
    (hp : req.path = "/") (hg : req.method ≠ "GET") (hh : req.method ≠ "HEAD")
    (ho : req.method ≠ "OPTIONS") :
    (appDispatch now req).status = 405 ∧
    (appDispatch now req).body = "Method Not Allowed" := by
  simp [appDispatch, hp, hg, hh, ho]

/-- The template prefix splits at the first `"Deployment Successful!"`. -/
theorem templatePrefix_split :
    templatePrefix = prefixA ++ "Deployment Successful!" ++ prefixB := rfl

/-- **C2.** The body of the response to a GET on `/` contains the
literal substring `"Deployment Successful!"`. -/
theorem body_contains_deployment_successful (now : DateTime) (req : Request)
    (hm : req.method = "GET") (hp : req.path = "/") :
    ∃ a b, (appDispatch now req).body = a ++ "Deployment Successful!" ++ b := by
  refine ⟨prefixA, prefixB ++ strftimeYmdHMS now ++ templateSuffix, ?_⟩
  simp only [appDispatch, hm, hp, if_pos, if_true, true_or, ite_true]
  simp [home, templatePrefix_split, String.append_assoc]

/-- Witness for C2 at a concrete request and clock value. -/
theorem body_contains_deployment_successful_witness :
    sampleGet.method = "GET" ∧ sampleGet.path = "/" ∧
    ∃ a b, (appDispatch sampleTime sampleGet).body =
      a ++ "Deployment Successful!" ++ b :=
  ⟨rfl, rfl, body_contains_deployment_successful sampleTime sampleGet rfl rfl⟩

/-- **C4.** The response to a GET on `/` has media type `text/html` and
its body is exactly the fixed template with the timestamp of the
handling-time clock value interpolated. -/
theorem get_root_html_rendered_template (now : DateTime) (req : Request)
    (hm : req.method = "GET") (hp : req.path = "/") :
    (appDispatch now req).mimetype = "text/html" ∧
    (appDispatch now req).body =
      templatePrefix ++ strftimeYmdHMS now ++ templateSuffix := by
  simp [appDispatch, hm, hp, home]

/-- Witness for C4 at a concrete request and clock value. -/
theorem get_root_html_rendered_template_witness :
    (appDispatch sampleTime sampleGet).mimetype = "text/html" ∧
    (appDispatch sampleTime sampleGet).body =
      templatePrefix ++ strftimeYmdHMS sampleTime ++ templateSuffix :=
  get_root_html_rendered_template sampleTime sampleGet rfl rfl

/-- **C5.** The bodies produced for `/` at two clock values share one
fixed prefix and suffix and differ only in the timestamp field between
them. -/
theorem bodies_differ_only_in_timestamp (t1 t2 : DateTime) :
    ∃ p s, home t1 = p ++ strftimeYmdHMS t1 ++ s ∧
           home t2 = p ++ strftimeYmdHMS t2 ++ s :=
  ⟨templatePrefix, templateSuffix, rfl, rfl⟩

/-- Witness for C10 at a concrete POST request to `/`. -/
theorem root_bad_method_405_witness :
    (appDispatch sampleTime
      { method := "POST", path := "/", query := [], headers := [],
        body := "x=1" }).status = 405 ∧
    (appDispatch sampleTime
      { method := "POST", path := "/", query := [], headers := [],
        body := "x=1" }).body = "Method Not Allowed" :=
  root_bad_method_405 sampleTime
    { method := "POST", path := "/", query := [], headers := [], body := "x=1" }
    rfl (by decide) (by decide) (by decide)

end Fapp
